import Mathlib

/-!
Shallow embedding of the School-Scheduler core (src/app.py).

The store is `st.session_state.schedule`, a Python list of dicts; we model
it as a `List ClassEntry`.  Times of day are `datetime.time` values in the
form data and `"%H:%M"` strings in the store; `strftime`/`strptime`
round-trip exactly on (hour, minute), so we model every time of day as its
minute count since midnight (a `Nat`), with the order of `datetime.time`
coinciding with the order on minute counts.  Python `float` arithmetic in
the layout (`48 / 30` etc.) is idealised as exact rational arithmetic.
Python truthiness: a string is falsy iff empty; `datetime.time` values are
always truthy (Python >= 3.5); `st.session_state.editing_id` is `None` or a
uuid string, modelled as `Option String` whose truthiness is
`some s` with `s` non-empty.
-/

/-- The `DAYS` constant of app.py (line 15). -/
def DAYS : List String := ["Monday", "Tuesday", "Wednesday", "Thursday", "Friday"]

/-- One stored schedule record (the dict built in `add_update_class`,
app.py lines 82-90, plus the `id` key added on the add path, line 100).
`startTime`/`endTime` are minutes since midnight (stored as `"%H:%M"`
strings in the source; the round-trip through `strftime`/`strptime` is the
identity on (hour, minute)). -/
structure ClassEntry where
  id : String
  subject : String
  teacher : String
  room : String
  day : String
  startTime : Nat
  endTime : Nat
  color : String
deriving DecidableEq, Repr

/-- The `data` dict passed to `add_update_class` (app.py lines 127-135):
the seven form fields, no id. -/
structure FormData where
  subject : String
  teacher : String
  room : String
  day : String
  startTime : Nat
  endTime : Nat
  color : String
deriving DecidableEq, Repr

/-- Python `all(data.values())` (app.py line 78): every field is truthy.
The two `datetime.time` values are always truthy (Python >= 3.5), so only
the five string fields contribute. -/
def FormData.allTruthy (d : FormData) : Bool :=
  !d.subject.isEmpty && !d.teacher.isEmpty && !d.room.isEmpty &&
    !d.day.isEmpty && !d.color.isEmpty

/-- The default whitespace characters removed by Python `str.strip()`
(space, tab, newline, carriage return, vertical tab, form feed; the ASCII
set — the form fields are ordinary text input). -/
def isSpaceChar (c : Char) : Bool :=
  c == ' ' || c == '\t' || c == '\n' || c == '\r' || c == '\x0b' || c == '\x0c'

/-- Python `str.strip()` (app.py lines 83-85): leading and trailing
whitespace removed. -/
def stripStr (s : String) : String :=
  String.mk (((s.data.dropWhile isSpaceChar).reverse.dropWhile isSpaceChar).reverse)

/-- The `item_data` dict built in `add_update_class` (app.py lines 82-90):
subject/teacher/room are stripped, day and color copied, times formatted
(modelled as the identity on minute counts). -/
structure ItemData where
  subject : String
  teacher : String
  room : String
  day : String
  startTime : Nat
  endTime : Nat
  color : String
deriving DecidableEq, Repr

/-- Build `item_data` from the form data (app.py lines 82-90). -/
def mkItemData (d : FormData) : ItemData :=
  { subject := stripStr d.subject
    teacher := stripStr d.teacher
    room := stripStr d.room
    day := d.day
    startTime := d.startTime
    endTime := d.endTime
    color := d.color }

/-- Python dict `.update(item_data)` on a stored entry (app.py line 96):
every non-id field is replaced, the `id` key is untouched because
`item_data` has no `id` key on the update path. -/
def applyItemData (e : ClassEntry) (it : ItemData) : ClassEntry :=
  { id := e.id
    subject := it.subject
    teacher := it.teacher
    room := it.room
    day := it.day
    startTime := it.startTime
    endTime := it.endTime
    color := it.color }

/-- A fresh entry on the add path (app.py lines 100-101): `item_data` with
a generated id.  The uuid generation is nondeterministic, so the fresh id
is a parameter of the model. -/
def mkNewEntry (newId : String) (it : ItemData) : ClassEntry :=
  { id := newId
    subject := it.subject
    teacher := it.teacher
    room := it.room
    day := it.day
    startTime := it.startTime
    endTime := it.endTime
    color := it.color }

/-- Outcome of one `add_update_class` call, named after the branch taken
(app.py lines 77-102): `validationError` is the `st.error` branch,
`updated`/`added` are the two toast branches, and `notFound` is the
`index == -1` branch of the update path, on which the source shows no
message and performs no store mutation (the spec calls this outcome
NotFound and notes it is not user-facing in the original). -/
inductive AddUpdateResult where
  | validationError
  | updated
  | notFound
  | added
deriving DecidableEq, Repr

/-- `next((i for i, item in ... if item['id'] == editing_id), -1)` followed
by an in-place `.update(item_data)` at that first index (app.py lines
94-96): returns `none` when no entry matches (index -1), otherwise the list
with the first matching entry updated in place. -/
def updateFirst (eid : String) (it : ItemData) : List ClassEntry → Option (List ClassEntry)
  | [] => none
  | e :: rest =>
    if e.id = eid then some (applyItemData e it :: rest)
    else (updateFirst eid it rest).map (fun r => e :: r)

/-- `add_update_class` (app.py lines 74-105), restricted to its effect on
the schedule list and the message branch taken.  `editingId` is
`st.session_state.editing_id` at call time (`if st.session_state.editing_id:`
is Python truthiness: `none` and `some ""` both take the add branch), and
`newId` is the uuid the add path would generate. -/
def addUpdateClass (d : FormData) (editingId : Option String) (newId : String)
    (schedule : List ClassEntry) : AddUpdateResult × List ClassEntry :=
  if !d.allTruthy || d.endTime ≤ d.startTime then
    (.validationError, schedule)
  else
    let it := mkItemData d
    match editingId with
    | some eid =>
      if eid.isEmpty then (.added, schedule ++ [mkNewEntry newId it])
      else
        match updateFirst eid it schedule with
        | some s2 => (.updated, s2)
        | none => (.notFound, schedule)
    | none => (.added, schedule ++ [mkNewEntry newId it])

/-- `delete_class_callback` (app.py lines 107-111): keep every entry whose
id differs from `itemId`. -/
def deleteClass (itemId : String) (schedule : List ClassEntry) : List ClassEntry :=
  schedule.filter (fun item => item.id != itemId)

/-- Python `list.index(x)` (app.py line 225): the first index at which `x`
occurs, raising `ValueError` when absent — modelled as `Option Nat`. -/
def dayIndexOf (d : String) : List String → Option Nat
  | [] => none
  | x :: xs => if x = d then some 0 else (dayIndexOf d xs).map (fun n => n + 1)

/-- One computed placement for a class block (render_schedule_grid, app.py
lines 224-240): the day column index, the `top` pixel offset and the pixel
height.  This is everything the geometry computation produces per entry;
the source attaches no out-of-range flag.  Pixel values are rationals
(Python float arithmetic idealised). -/
structure Placement where
  dayIndex : Nat
  verticalOffset : ℚ
  height : ℚ
deriving DecidableEq, Repr

/-- The per-entry geometry of `render_schedule_grid` (app.py lines
224-240): `day_index = DAYS.index(cls['day'])` (raises if absent, modelled
as `none`), `start_minute_of_day = startTime - 8*60`,
`duration_minutes = endTime - startTime`, ratio `48 / 30`,
`top_offset = start_minute_of_day * ratio`,
`height_px = duration_minutes * ratio`. -/
def placementOf (cls : ClassEntry) : Option Placement :=
  (dayIndexOf cls.day DAYS).map (fun dayIndex =>
    { dayIndex := dayIndex
      verticalOffset := ((cls.startTime : ℚ) - 8 * 60) * (48 / 30)
      height := ((cls.endTime : ℚ) - (cls.startTime : ℚ)) * (48 / 30) })

/-- The geometry loop of `render_schedule_grid` over the whole schedule
(app.py line 224): one placement per entry in store order; `DAYS.index`
raising on any entry aborts the render, modelled as `none` for the whole
list. -/
def renderPlacements (schedule : List ClassEntry) : Option (List Placement) :=
  schedule.mapM placementOf

/-- Modelled from the spec: the start of the configured visible range,
08:00, in minutes since midnight (spec section 4.2). -/
def rangeStartMinutes : Nat := 8 * 60

/-- Modelled from the spec: the end of the configured visible range,
18:00, in minutes since midnight (spec section 4.2). -/
def rangeEndMinutes : Nat := 18 * 60

/-- Modelled from the spec: a placement as the spec's `computePlacements`
signature describes it (spec sections 4.2 and 6), carrying the
`outOfRange` flag that the source code does not compute. -/
structure SpecPlacement where
  dayIndex : Nat
  verticalOffset : ℚ
  height : ℚ
  outOfRange : Bool
deriving DecidableEq, Repr

/-- Modelled from the spec: the spec's per-entry placement (section 4.2) —
the same linear geometry as the source, plus the clipped/out-of-range flag
(`minutesFromRangeStart` negative, or `endTime` past the range end) that
the source never produces. -/
def specPlacementOf (cls : ClassEntry) : Option SpecPlacement :=
  (dayIndexOf cls.day DAYS).map (fun dayIndex =>
    { dayIndex := dayIndex
      verticalOffset := ((cls.startTime : ℚ) - 8 * 60) * (48 / 30)
      height := ((cls.endTime : ℚ) - (cls.startTime : ℚ)) * (48 / 30)
      outOfRange := decide (cls.startTime < rangeStartMinutes ∨ rangeEndMinutes < cls.endTime) })

/-! ### Helper lemmas -/

lemma dayIndexOf_of_mem {d : String} :
    ∀ {l : List String}, d ∈ l → ∃ n, dayIndexOf d l = some n := by
  intro l
  induction l with
  | nil => intro h; cases h
  | cons x xs ih =>
    intro hmem
    by_cases hx : x = d
    · exact ⟨0, by simp [dayIndexOf, hx]⟩
    · rcases List.mem_cons.mp hmem with hh | hmem
      · exact absurd hh.symm hx
      · obtain ⟨n, hn⟩ := ih hmem
        exact ⟨n + 1, by simp [dayIndexOf, hx, hn]⟩

lemma updateFirst_eq_none {eid : String} {it : ItemData} :
    ∀ {s : List ClassEntry}, (∀ e ∈ s, e.id ≠ eid) → updateFirst eid it s = none := by
  intro s
  induction s with
  | nil => intro h; rfl
  | cons e rest ih =>
    intro habs
    have hne : e.id ≠ eid := habs e (by simp)
    simp [updateFirst, hne, ih (fun x hx => habs x (by simp [hx]))]

lemma updateFirst_mem {eid : String} {it : ItemData} :
    ∀ {s s2 : List ClassEntry}, updateFirst eid it s = some s2 →
      ∀ e ∈ s2, e ∈ s ∨ (e.startTime = it.startTime ∧ e.endTime = it.endTime) := by
  intro s
  induction s with
  | nil => intro s2 h; cases h
  | cons x rest ih =>
    intro s2 h e he
    by_cases hx : x.id = eid
    · simp [updateFirst, hx] at h
      subst h
      rcases List.mem_cons.mp he with rfl | he
      · right; exact ⟨rfl, rfl⟩
      · left; simp [he]
    · simp [updateFirst, hx] at h
      obtain ⟨r, hr, h2⟩ := h
      subst h2
      rcases List.mem_cons.mp he with rfl | he
      · left; simp
      · rcases ih hr e he with hin | ht
        · left; simp [hin]
        · right; exact ht

lemma updateFirst_append {eid : String} {it : ItemData} {old : ClassEntry}
    (post : List ClassEntry) (hold : old.id = eid) :
    ∀ (pre : List ClassEntry), (∀ e ∈ pre, e.id ≠ eid) →
      updateFirst eid it (pre ++ old :: post) = some (pre ++ applyItemData old it :: post) := by
  intro pre
  induction pre with
  | nil => intro h; simp [updateFirst, hold]
  | cons x rest ih =>
    intro hpre
    have hx : x.id ≠ eid := hpre x (by simp)
    simp [updateFirst, hx, ih (fun e he => hpre e (by simp [he]))]

/-! ### Concrete fixtures for witnesses and counterexamples -/

/-- A Monday 09:00-10:00 entry (Scenario 3 of the spec). -/
def entry0900 : ClassEntry :=
  { id := "id1", subject := "Math", teacher := "T", room := "R",
    day := "Monday", startTime := 540, endTime := 600, color := "#3B82F6" }

/-- A Monday 10:00-12:00 entry (twice the duration of `entry0900`). -/
def entry1000 : ClassEntry :=
  { id := "id2", subject := "Phys", teacher := "T", room := "R",
    day := "Monday", startTime := 600, endTime := 720, color := "#8B5CF6" }

/-- A Monday 07:00-10:00 entry starting before the visible range. -/
def entryEarly : ClassEntry :=
  { id := "id3", subject := "Chem", teacher := "T", room := "R",
    day := "Monday", startTime := 420, endTime := 600, color := "#EC4899" }

/-- Valid form data except that the day is not in the configured `DAYS`. -/
def formSunday : FormData :=
  { subject := "Math", teacher := "T", room := "R",
    day := "Sunday", startTime := 540, endTime := 600, color := "#3B82F6" }

/-- Form data whose subject is whitespace-only (truthy but stripped to empty). -/
def formBlankSubject : FormData :=
  { subject := " ", teacher := "T", room := "R",
    day := "Monday", startTime := 540, endTime := 600, color := "#3B82F6" }

/-- Valid form data whose subject carries surrounding whitespace. -/
def formPadded : FormData :=
  { subject := " Math ", teacher := "T2", room := "R2",
    day := "Tuesday", startTime := 600, endTime := 660, color := "#10B981" }

/-- Fully valid form data. -/
def formValid : FormData :=
  { subject := "Math", teacher := "T", room := "R",
    day := "Monday", startTime := 540, endTime := 600, color := "#3B82F6" }

/-- Form data that is valid except that the start time is after the end time. -/
def formBadTimes : FormData := { formValid with startTime := 600, endTime := 540 }

/-! ### Store lemmas -/

/-- Every entry in the store after an `add_update_class` call was already in
the store, or carries the validated form times (which then satisfy
`startTime < endTime`). -/
lemma addUpdateClass_store_mem (d : FormData) (editingId : Option String)
    (newId : String) (s : List ClassEntry) :
    ∀ e ∈ (addUpdateClass d editingId newId s).2,
      e ∈ s ∨ (d.startTime < d.endTime ∧ e.startTime = d.startTime ∧ e.endTime = d.endTime) := by
  intro e he
  by_cases hcond : (!d.allTruthy || decide (d.endTime ≤ d.startTime)) = true
  · simp only [addUpdateClass, hcond, if_true] at he
    exact Or.inl he
  · have hlt : d.startTime < d.endTime := by
      simp only [Bool.or_eq_true, Bool.not_eq_true', decide_eq_true_eq, not_or] at hcond
      omega
    cases editingId with
    | none =>
      simp only [addUpdateClass, hcond, if_false] at he
      rcases List.mem_append.mp he with hin | hnew
      · exact Or.inl hin
      · right
        rcases List.mem_singleton.mp hnew with rfl
        exact ⟨hlt, rfl, rfl⟩
    | some eid =>
      by_cases heid : eid.isEmpty
      · simp only [addUpdateClass, hcond, heid, if_false, if_true] at he
        rcases List.mem_append.mp he with hin | hnew
        · exact Or.inl hin
        · right
          rcases List.mem_singleton.mp hnew with rfl
          exact ⟨hlt, rfl, rfl⟩
      · cases hu : updateFirst eid (mkItemData d) s with
        | none =>
          simp only [addUpdateClass, hcond, heid, if_false, hu] at he
          exact Or.inl he
        | some s2 =>
          simp only [addUpdateClass, hcond, heid, if_false, hu] at he
          rcases updateFirst_mem hu e he with hin | ht
          · exact Or.inl hin
          · exact Or.inr ⟨hlt, ht.1, ht.2⟩

/-! ### Claim theorems -/

/-- Claim C1 (amended): with the configured range 08:00-18:00 and unit
30 min = 48 px, an entry 09:00-10:00 on the first configured day yields
`dayIndex = 0`, `verticalOffset = 96` (not 48: 09:00 is 60 minutes past the
range start and 60 * 48/30 = 96), and `height = 96`. -/
theorem C1_scenario3 (e : ClassEntry) (hd : e.day = "Monday")
    (hs : e.startTime = 540) (he : e.endTime = 600) :
    placementOf e = some { dayIndex := 0, verticalOffset := 96, height := 96 } := by
  simp [placementOf, dayIndexOf, DAYS, hd, hs, he]
  norm_num

/-- Witness for C1: the concrete Monday 09:00-10:00 entry. -/
theorem C1_scenario3_witness :
    placementOf entry0900 = some { dayIndex := 0, verticalOffset := 96, height := 96 } :=
  C1_scenario3 entry0900 rfl rfl rfl

/-- Counterexample to C1 as stated: the Monday 09:00-10:00 entry gets
`verticalOffset = 96`, not the claimed 48. -/
theorem C1_counterexample :
    placementOf entry0900 = some { dayIndex := 0, verticalOffset := 96, height := 96 } ∧
    placementOf entry0900 ≠ some { dayIndex := 0, verticalOffset := 48, height := 96 } := by
  constructor <;> simp [placementOf, dayIndexOf, DAYS, entry0900] <;> norm_num

/-- Counterexample to C2 as stated: a create call with day `"Sunday"`,
which is not in the configured `DAYS`, is accepted and appended to the
store — `add_update_class` checks only truthiness, not membership. -/
theorem C2_day_unchecked_counterexample :
    addUpdateClass formSunday none "nid" [] =
      (.added, [{ id := "nid", subject := "Math", teacher := "T", room := "R",
                  day := "Sunday", startTime := 540, endTime := 600, color := "#3B82F6" }]) ∧
    "Sunday" ∉ DAYS := by decide

/-- Claim C2 (amended): the only day validation `add_update_class` performs
is truthiness — a call whose day is the empty string is rejected with a
validation error and no store mutation; no membership check against the
configured day enumeration exists, so a non-empty day outside it is
accepted (see the counterexample). -/
theorem C2_day_truthiness (d : FormData) (editingId : Option String)
    (newId : String) (s : List ClassEntry) (hday : d.day = "") :
    addUpdateClass d editingId newId s = (.validationError, s) := by
  have hT : d.allTruthy = false := by
    simp [FormData.allTruthy, hday, String.isEmpty]
  simp [addUpdateClass, hT]

/-- Witness for C2: a concrete call with an empty day is rejected. -/
theorem C2_day_truthiness_witness :
    addUpdateClass { formValid with day := "" } none "x" [] = (.validationError, []) :=
  C2_day_truthiness { formValid with day := "" } none "x" [] rfl

/-- Claim C3 (confirmed): an attempt with `startTime >= endTime` is
rejected with a validation error and the store is returned unchanged (same
list, hence same count and contents); and every `add_update_class` call
preserves the invariant that all stored entries satisfy
`startTime < endTime`. -/
theorem C3_time_ordering (d : FormData) (editingId : Option String)
    (newId : String) (s : List ClassEntry) :
    (d.endTime ≤ d.startTime → addUpdateClass d editingId newId s = (.validationError, s)) ∧
    ((∀ e ∈ s, e.startTime < e.endTime) →
      ∀ e ∈ (addUpdateClass d editingId newId s).2, e.startTime < e.endTime) := by
  constructor
  · intro hle
    simp [addUpdateClass, hle]
  · intro hinv e he
    rcases addUpdateClass_store_mem d editingId newId s e he with hin | ⟨_, h1, h2⟩
    · exact hinv e hin
    · omega

/-- Witness for C3: a concrete 10:00-09:00 create is rejected leaving the
store unchanged, and the entry created by a valid call satisfies
`startTime < endTime`. -/
theorem C3_time_ordering_witness :
    addUpdateClass formBadTimes none "x" [entry0900] = (.validationError, [entry0900]) ∧
    (mkNewEntry "x" (mkItemData formValid)).startTime <
      (mkNewEntry "x" (mkItemData formValid)).endTime := by
  refine ⟨(C3_time_ordering formBadTimes none "x" [entry0900]).1 (by decide), ?_⟩
  exact (C3_time_ordering formValid none "x" []).2 (by simp)
    (mkNewEntry "x" (mkItemData formValid)) (by decide)

/-- Claim C4 (confirmed): an update call (truthy editing id) whose target
id matches no stored entry leaves the store unchanged, and — when the form
data passes validation, the spec's "same validation as create" — takes the
NotFound branch (`index == -1`: no toast, no mutation). -/
theorem C4_update_not_found (d : FormData) (eid newId : String) (s : List ClassEntry)
    (hne : eid ≠ "") (habs : ∀ e ∈ s, e.id ≠ eid) :
    (addUpdateClass d (some eid) newId s).2 = s ∧
    (d.allTruthy = true → d.startTime < d.endTime →
      addUpdateClass d (some eid) newId s = (.notFound, s)) := by
  have hempty : eid.isEmpty = false := by
    cases h : eid.isEmpty
    · rfl
    · exact absurd ((String.isEmpty_iff eid).mp h) hne
  have hupd : updateFirst eid (mkItemData d) s = none := updateFirst_eq_none habs
  by_cases hcond : (!d.allTruthy || decide (d.endTime ≤ d.startTime)) = true
  · constructor
    · simp [addUpdateClass, hcond]
    · intro hT hlt
      rw [hT] at hcond
      simp at hcond
      omega
  · constructor
    · simp [addUpdateClass, hcond, hempty, hupd]
    · intro _ _
      simp [addUpdateClass, hcond, hempty, hupd]

/-- Witness for C4: updating the absent id `"zzz"` on a one-entry store. -/
theorem C4_update_not_found_witness :
    (addUpdateClass formValid (some "zzz") "x" [entry0900]).2 = [entry0900] ∧
    addUpdateClass formValid (some "zzz") "x" [entry0900] = (.notFound, [entry0900]) := by
  have h := C4_update_not_found formValid "zzz" "x" [entry0900] (by decide) (by decide)
  exact ⟨h.1, h.2 (by decide) (by decide)⟩

/-- Counterexample to C5 as stated: a successful update whose new subject
is `" Math "` stores the stripped `"Math"`, so the resulting entry does not
have exactly the given newFields. -/
theorem C5_counterexample :
    addUpdateClass formPadded (some "id1") "unused" [entry0900] =
      (.updated, [{ id := "id1", subject := "Math", teacher := "T2", room := "R2",
                    day := "Tuesday", startTime := 600, endTime := 660, color := "#10B981" }]) ∧
    ("Math" : String) ≠ formPadded.subject := by decide

/-- Claim C5 (amended): a successful update on a present id replaces the
first matching entry in place — same position, same id, all non-id fields
set to the normalized newFields (subject/teacher/room whitespace-stripped,
day, times and color as given) — and every other entry is unchanged. -/
theorem C5_update_replaces (d : FormData) (eid newId : String)
    (pre post : List ClassEntry) (old : ClassEntry)
    (hne : eid ≠ "") (hid : old.id = eid) (hpre : ∀ e ∈ pre, e.id ≠ eid)
    (hT : d.allTruthy = true) (hlt : d.startTime < d.endTime) :
    addUpdateClass d (some eid) newId (pre ++ old :: post) =
      (.updated, pre ++ applyItemData old (mkItemData d) :: post) ∧
    (applyItemData old (mkItemData d)).id = old.id ∧
    (applyItemData old (mkItemData d)).subject = stripStr d.subject := by
  have hempty : eid.isEmpty = false := by
    cases h : eid.isEmpty
    · rfl
    · exact absurd ((String.isEmpty_iff eid).mp h) hne
  have hcond : (!d.allTruthy || decide (d.endTime ≤ d.startTime)) = false := by
    simp [hT]
    omega
  refine ⟨?_, rfl, rfl⟩
  simp [addUpdateClass, hcond, hempty, updateFirst_append post hid pre hpre]

/-- Witness for C5: updating `entry0900` (id `"id1"`) in a two-entry store. -/
theorem C5_update_replaces_witness :
    addUpdateClass formPadded (some "id1") "u" ([entry1000] ++ entry0900 :: []) =
      (.updated, [entry1000] ++ applyItemData entry0900 (mkItemData formPadded) :: []) ∧
    (applyItemData entry0900 (mkItemData formPadded)).id = entry0900.id ∧
    (applyItemData entry0900 (mkItemData formPadded)).subject = stripStr formPadded.subject :=
  C5_update_replaces formPadded "id1" "u" [entry1000] [] entry0900
    (by decide) (by decide) (by decide) (by decide) (by decide)

/-- Claim C6 (confirmed): deleting the same id twice leaves the store in
the same state as deleting it once, and deleting an id present in no entry
leaves the store exactly as it was; the operation is total (a list filter),
so no error is possible in either case. -/
theorem C6_delete_idempotent (s : List ClassEntry) (targetId : String) :
    deleteClass targetId (deleteClass targetId s) = deleteClass targetId s ∧
    ((∀ e ∈ s, e.id ≠ targetId) → deleteClass targetId s = s) := by
  constructor
  · simp [deleteClass, List.filter_filter]
  · intro h
    rw [deleteClass, List.filter_eq_self]
    intro e he
    simpa using h e he

/-- Witness for C6: deleting the never-issued id `"zzz"` once and twice. -/
theorem C6_delete_idempotent_witness :
    deleteClass "zzz" (deleteClass "zzz" [entry0900]) = deleteClass "zzz" [entry0900] ∧
    deleteClass "zzz" [entry0900] = [entry0900] := by
  have h := C6_delete_idempotent [entry0900] "zzz"
  exact ⟨h.1, h.2 (by decide)⟩

/-- Claim C7 (confirmed): for the fixed configuration, doubling an entry's
duration doubles its computed pixel height (exactly — the arithmetic is
linear, no rounding occurs), and on the same day a later (or equal) start
time gives a greater or equal vertical offset. -/
theorem C7_layout_linearity (a b : ClassEntry) (pa pb : Placement)
    (ha : placementOf a = some pa) (hb : placementOf b = some pb) :
    (((a.endTime : ℚ) - a.startTime) = 2 * ((b.endTime : ℚ) - b.startTime) →
      pa.height = 2 * pb.height) ∧
    (a.day = b.day → b.startTime ≤ a.startTime →
      pb.verticalOffset ≤ pa.verticalOffset) := by
  rw [placementOf, Option.map_eq_some'] at ha hb
  obtain ⟨na, hna, hpa⟩ := ha
  obtain ⟨nb, hnb, hpb⟩ := hb
  subst hpa hpb
  constructor
  · intro hdur
    show ((a.endTime : ℚ) - a.startTime) * (48 / 30) =
      2 * (((b.endTime : ℚ) - b.startTime) * (48 / 30))
    rw [hdur]
    ring
  · intro _ hle
    show ((b.startTime : ℚ) - 8 * 60) * (48 / 30) ≤ ((a.startTime : ℚ) - 8 * 60) * (48 / 30)
    have hq : (b.startTime : ℚ) ≤ a.startTime := by exact_mod_cast hle
    have h3 : ((b.startTime : ℚ) - 8 * 60) ≤ ((a.startTime : ℚ) - 8 * 60) := by linarith
    exact mul_le_mul_of_nonneg_right h3 (by norm_num)

/-- Witness for C7: the two-hour `entry1000` against the one-hour
`entry0900` on the same Monday. -/
theorem C7_layout_linearity_witness :
    ({ dayIndex := 0, verticalOffset := 192, height := 192 } : Placement).height =
      2 * ({ dayIndex := 0, verticalOffset := 96, height := 96 } : Placement).height ∧
    ({ dayIndex := 0, verticalOffset := 96, height := 96 } : Placement).verticalOffset ≤
      ({ dayIndex := 0, verticalOffset := 192, height := 192 } : Placement).verticalOffset := by
  have hpa : placementOf entry1000 =
      some { dayIndex := 0, verticalOffset := 192, height := 192 } := by
    simp [placementOf, dayIndexOf, DAYS, entry1000]
    norm_num
  have hpb : placementOf entry0900 =
      some { dayIndex := 0, verticalOffset := 96, height := 96 } := by
    simp [placementOf, dayIndexOf, DAYS, entry0900]
    norm_num
  have h := C7_layout_linearity entry1000 entry0900 _ _ hpa hpb
  exact ⟨h.1 (by norm_num [entry1000, entry0900]), h.2 rfl (by norm_num [entry1000, entry0900])⟩

/-- Counterexample to C8 as stated: a create whose subject is the
whitespace-only `" "` passes the truthiness validation but stores the
stripped, empty subject. -/
theorem C8_counterexample :
    addUpdateClass formBlankSubject none "x" [] =
      (.added, [{ id := "x", subject := "", teacher := "T", room := "R",
                  day := "Monday", startTime := 540, endTime := 600, color := "#3B82F6" }]) ∧
    formBlankSubject.subject ≠ "" := by decide

/-- Claim C8 (amended): every input accepted by create has a non-empty
subject string, and the stored entry's subject is the whitespace-stripped
input subject — which is empty when the input consists only of whitespace,
so the stored subject itself is not guaranteed non-empty. -/
theorem C8_subject_stripped (d : FormData) (newId : String) (s : List ClassEntry)
    (hT : d.allTruthy = true) (hlt : d.startTime < d.endTime) :
    addUpdateClass d none newId s = (.added, s ++ [mkNewEntry newId (mkItemData d)]) ∧
    d.subject ≠ "" ∧
    (mkNewEntry newId (mkItemData d)).subject = stripStr d.subject := by
  have hcond : (!d.allTruthy || decide (d.endTime ≤ d.startTime)) = false := by
    simp [hT]
    omega
  refine ⟨by simp [addUpdateClass, hcond], ?_, rfl⟩
  intro hsub
  rw [FormData.allTruthy, hsub] at hT
  simp [String.isEmpty] at hT

/-- Witness for C8: a fully valid create on the empty store. -/
theorem C8_subject_stripped_witness :
    addUpdateClass formValid none "x" [] =
      (.added, [] ++ [mkNewEntry "x" (mkItemData formValid)]) ∧
    formValid.subject ≠ "" ∧
    (mkNewEntry "x" (mkItemData formValid)).subject = stripStr formValid.subject :=
  C8_subject_stripped formValid "x" [] (by decide) (by decide)

/-- Counterexample to C9 as stated: for the 07:00-10:00 Monday entry, which
starts before the visible range, the source computation produces exactly
the bare raw triple (dayIndex 0, offset -96, height 288) — the spec-side
placement carries `outOfRange = true`, but the code computes no such flag
and emits the unclamped negative offset unmarked. -/
theorem C9_counterexample :
    placementOf entryEarly = some { dayIndex := 0, verticalOffset := -96, height := 288 } ∧
    specPlacementOf entryEarly =
      some { dayIndex := 0, verticalOffset := -96, height := 288, outOfRange := true } ∧
    ({ dayIndex := 0, verticalOffset := -96, height := 288 } : Placement).verticalOffset < 0 := by
  refine ⟨?_, ?_, by norm_num⟩
  · simp [placementOf, dayIndexOf, DAYS, entryEarly]
    norm_num
  · simp [specPlacementOf, dayIndexOf, DAYS, entryEarly, rangeStartMinutes, rangeEndMinutes]
    norm_num

/-- Claim C9 (amended): for every entry whose day is in the configured
enumeration, the layout computation returns a placement with the raw linear
geometry — entries before the range start or past the range end are neither
dropped nor a failure — but no clipped/out-of-range flag is attached. -/
theorem C9_no_drop (e : ClassEntry) (hday : e.day ∈ DAYS) :
    ∃ p, placementOf e = some p ∧
      p.verticalOffset = ((e.startTime : ℚ) - 8 * 60) * (48 / 30) ∧
      p.height = ((e.endTime : ℚ) - e.startTime) * (48 / 30) := by
  obtain ⟨n, hn⟩ := dayIndexOf_of_mem hday
  exact ⟨{ dayIndex := n, verticalOffset := ((e.startTime : ℚ) - 8 * 60) * (48 / 30),
           height := ((e.endTime : ℚ) - e.startTime) * (48 / 30) },
    by simp [placementOf, hn], rfl, rfl⟩

/-- Witness for C9: the out-of-range 07:00-10:00 entry still gets a
placement. -/
theorem C9_no_drop_witness :
    ∃ p, placementOf entryEarly = some p ∧
      p.verticalOffset = ((entryEarly.startTime : ℚ) - 8 * 60) * (48 / 30) ∧
      p.height = ((entryEarly.endTime : ℚ) - entryEarly.startTime) * (48 / 30) :=
  C9_no_drop entryEarly (by decide)

/-- Claim C10 (confirmed): subject, teacher, room, day and color are all
required — a call in which any of them is the empty (falsy) string is
rejected with a validation error and the store is unchanged.  The two time
fields also appear in `all(data.values())` but `datetime.time` values are
always truthy (Python >= 3.5), so they impose no emptiness condition. -/
theorem C10_required_fields (d : FormData) (editingId : Option String)
    (newId : String) (s : List ClassEntry)
    (hempty : d.subject = "" ∨ d.teacher = "" ∨ d.room = "" ∨ d.day = "" ∨ d.color = "") :
    addUpdateClass d editingId newId s = (.validationError, s) := by
  have hT : d.allTruthy = false := by
    rcases hempty with h | h | h | h | h <;> simp [FormData.allTruthy, h, String.isEmpty]
  simp [addUpdateClass, hT]

/-- Witness for C10: a create with an empty teacher field is rejected. -/
theorem C10_required_fields_witness :
    addUpdateClass { formValid with teacher := "" } none "x" [] = (.validationError, []) :=
  C10_required_fields { formValid with teacher := "" } none "x" [] (Or.inr (Or.inl rfl))
